import Mathlib

/-!
Shallow embedding of the `pyutils` repository (files `classtools.py` and
`events.py`) and proofs about it.

Conventions of the embedding:
* Python exceptions are modelled with `Except PyErr`; `PyErr.typeError`
  stands for `TypeError`, `PyErr.valueError` for `ValueError`.
* A Python method that ends without a `return` statement returns `None`;
  where a claim depends on that return value we make it explicit as
  `Option _` with `none` standing for Python's `None`.
* Mutable attributes become fields of explicit state records that the
  translated methods thread through.
* Event firing (`Event.call`) runs the subscribed callbacks in list order;
  where an object graph is fixed by a scenario (a master with one slave,
  for instance) the callback list of each event is inlined at its single
  call site, exactly as the subscriptions made in the constructors dictate.
-/

/-- Python exceptions that the modelled code can raise. -/
inductive PyErr where
  | typeError
  | valueError
deriving DecidableEq, Repr

/-- Model of Python's `list.remove`: removes the first occurrence of `a`,
raises `ValueError` when `a` is absent. -/
def pyRemove {α : Type} [DecidableEq α] (l : List α) (a : α) : Except PyErr (List α) :=
  if a ∈ l then .ok (l.erase a) else .error .valueError

/-! ## `events.py`: class `Event`

`Event` stores a list `_callbacks`; `add_listener` appends, `remove_listener`
delegates to `list.remove`, `call` invokes each callback in order.
-/

/-- State of an `Event` object: its `_callbacks` list. -/
structure EventObj (C : Type) where
  _callbacks : List C
deriving DecidableEq, Repr

/-- Method `Event.add_listener`: appends `fun` to `_callbacks`.  The Python
method body has no `return`, so the call evaluates to `None`; the second
component is that return value (`none` = Python `None`, `some _` would be an
object). -/
def Event.add_listener {C : Type} (e : EventObj C) (f : C) :
    EventObj C × Option (EventObj C) :=
  (⟨e._callbacks ++ [f]⟩, none)

/-- Method `Event.remove_listener`: `self._callbacks.remove(fun)`; raises
`ValueError` when `fun` is not subscribed, and returns `None` otherwise. -/
def Event.remove_listener {C : Type} [DecidableEq C] (e : EventObj C) (f : C) :
    Except PyErr (EventObj C × Option (EventObj C)) := do
  let l ← pyRemove e._callbacks f
  return (⟨l⟩, none)

/-- Method `Event.__iadd__`: `return self.add_listener(fun)`. -/
def Event.iadd {C : Type} (e : EventObj C) (f : C) :
    EventObj C × Option (EventObj C) :=
  Event.add_listener e f

/-- Method `Event.__isub__`: `return self.remove_listener(fun)`. -/
def Event.isub {C : Type} [DecidableEq C] (e : EventObj C) (f : C) :
    Except PyErr (EventObj C × Option (EventObj C)) :=
  Event.remove_listener e f

/-- Model of a zero-argument Python callback over ambient mutable state `σ`:
it transforms the state and optionally raises `ε` (state changes made before
a raise persist, as with Python side effects). -/
def Cb (σ ε : Type) : Type := σ → σ × Option ε

/-- Method `Event.call`: `for f in self._callbacks: f()` — runs the callbacks
in subscription order; a raised exception stops the loop and propagates, the
state changes already made remain. -/
def Event.call {σ ε : Type} : List (Cb σ ε) → σ → σ × Option ε
  | [], s => (s, none)
  | f :: rest, s =>
    match f s with
    | (s', none) => Event.call rest s'
    | (s', some e) => (s', some e)

/-- Cumulative state effect of running callbacks in list order, ignoring
exceptions (used to phrase what `Event.call` did). -/
def Event.run {σ ε : Type} (cbs : List (Cb σ ε)) (s : σ) : σ :=
  cbs.foldl (fun t f => (f t).1) s

/-- Unfolding lemma: a callback that returns normally hands the loop on to
the remaining callbacks. -/
theorem Event.call_cons_ok {σ ε : Type} (f : Cb σ ε) (rest : List (Cb σ ε))
    (s s' : σ) (h : f s = (s', none)) :
    Event.call (f :: rest) s = Event.call rest s' := by
  simp [Event.call, h]

/-- Unfolding lemma: a callback that raises stops the loop immediately. -/
theorem Event.call_cons_err {σ ε : Type} (f : Cb σ ε) (rest : List (Cb σ ε))
    (s s' : σ) (e : ε) (h : f s = (s', some e)) :
    Event.call (f :: rest) s = (s', some e) := by
  simp [Event.call, h]

/-! Theorems for claims C3 and C9. -/

/-- Claim C3: `Event.__iadd__` / `Event.__isub__` return the return value of
`add_listener` / `remove_listener`, which is `None`; hence the Python
augmented assignment `e += f` (which rebinds `e` to the value returned by
`__iadd__`) rebinds `e` to `None` — second component `none` — although `f`
was correctly appended to (resp. removed from) the `_callbacks` list of the
underlying object — first component. -/
theorem event_iadd_isub_return_none {C : Type} [DecidableEq C]
    (e : EventObj C) (f : C) (hf : f ∈ e._callbacks) :
    Event.iadd e f = (⟨e._callbacks ++ [f]⟩, none) ∧
    Event.isub e f = .ok (⟨e._callbacks.erase f⟩, none) := by
  refine ⟨rfl, ?_⟩
  simp [Event.isub, Event.remove_listener, pyRemove, hf]

/-- Witness for C3 at a concrete event with `_callbacks = [0, 1]` and `f = 1`. -/
theorem event_iadd_isub_return_none_witness :
    Event.iadd (⟨[0, 1]⟩ : EventObj Nat) 1 = (⟨[0, 1, 1]⟩, none) ∧
    Event.isub (⟨[0, 1]⟩ : EventObj Nat) 1 = .ok (⟨[0]⟩, none) := by
  have h := event_iadd_isub_return_none (⟨[0, 1]⟩ : EventObj Nat) 1 (by decide)
  simpa using h

/-- Claim C9: `fire()` (that is, `Event.call`) invokes the subscribed
callbacks in subscription order with no arguments.  First conjunct: when no
callback raises, the result is the in-order fold of the callbacks and no
exception is reported.  Second conjunct: when the callbacks are
`pre ++ bad :: post` with every callback of `pre` returning normally and
`bad` raising `e`, the exception `e` propagates to the caller of `fire()`,
the final state is the in-order effect of `pre` followed by `bad`'s own
state effect (so the callbacks before `bad` were all invoked, in order,
before the raise), and the callbacks of `post` are never invoked (the
result does not depend on `post`). -/
theorem event_call_order_and_abort {σ ε : Type} :
    (∀ (cbs : List (Cb σ ε)) (s : σ), (∀ f ∈ cbs, ∀ t, (f t).2 = none) →
      Event.call cbs s = (Event.run cbs s, none)) ∧
    (∀ (pre post : List (Cb σ ε)) (bad : Cb σ ε) (s : σ) (e : ε),
      (∀ f ∈ pre, ∀ t, (f t).2 = none) → (∀ t, (bad t).2 = some e) →
      Event.call (pre ++ bad :: post) s = ((bad (Event.run pre s)).1, some e)) := by
  constructor
  · intro cbs
    induction cbs with
    | nil => intro s _; rfl
    | cons f rest ih =>
      intro s h
      have hf : (f s).2 = none := h f (by simp) s
      have hfs : f s = ((f s).1, none) := by rw [← hf]
      rw [Event.call_cons_ok f rest s ((f s).1) hfs,
        ih ((f s).1) (fun g hg t => h g (List.mem_cons_of_mem _ hg) t)]
      simp [Event.run]
  · intro pre
    induction pre with
    | nil =>
      intro post bad s e _ hbad
      have hbs : bad s = ((bad s).1, some e) := by rw [← hbad s]
      rw [List.nil_append, Event.call_cons_err bad post s ((bad s).1) e hbs]
      simp [Event.run]
    | cons f rest ih =>
      intro post bad s e hpre hbad
      have hf : (f s).2 = none := hpre f (by simp) s
      have hfs : f s = ((f s).1, none) := by rw [← hf]
      rw [List.cons_append, Event.call_cons_ok f (rest ++ bad :: post) s ((f s).1) hfs,
        ih post bad ((f s).1) e (fun g hg t => hpre g (List.mem_cons_of_mem _ hg) t) hbad]
      simp [Event.run]

/-- Witness for C9: three logging callbacks over `σ = List Nat`; callback `i`
appends `i` to the log, the middle one (index 1) then raises.  `Event.call`
reports the exception, the log shows callbacks 0 and 1 ran in order, and
callback 2 never ran; with no raising callback all three run in order. -/
theorem event_call_order_and_abort_witness :
    Event.call
        ([fun t => (t ++ [0], none), fun t => (t ++ [1], none),
          fun t => (t ++ [2], none)] : List (Cb (List Nat) PyErr)) [] =
      ([0, 1, 2], none) ∧
    Event.call
        ([fun t => (t ++ [0], none),
          fun t => (t ++ [1], some PyErr.valueError),
          fun t => (t ++ [2], none)] : List (Cb (List Nat) PyErr)) [] =
      ([0, 1], some PyErr.valueError) := by
  constructor
  · have h := (event_call_order_and_abort (σ := List Nat) (ε := PyErr)).1
      [fun t => (t ++ [0], none), fun t => (t ++ [1], none),
        fun t => (t ++ [2], none)] []
      (by intro f hf t; simp at hf; rcases hf with h | h | h <;> simp [h])
    simpa [Event.run] using h
  · have h := (event_call_order_and_abort (σ := List Nat) (ε := PyErr)).2
      [fun t => (t ++ [0], none)] [fun t => (t ++ [2], none)]
      (fun t => (t ++ [1], some PyErr.valueError)) [] PyErr.valueError
      (by intro f hf t; simp at hf; simp [hf]) (by intro t; rfl)
    simpa [Event.run] using h

/-! ## `classtools.py`: classes `StoreInstances` and `Unique`

Instances are identified by natural numbers; a class's `_instances`
attribute is a `List Nat` of those identities in registration order.
-/

/-- Registry operation on a class using `StoreInstances`: `new k`
constructs an object whose identity is `k`, `del k` destroys object `k`. -/
inductive RegOp where
  | new (k : Nat)
  | del (k : Nat)
deriving DecidableEq, Repr

/-- Method `StoreInstances.__new__`: `cls._instances.append(inst)` — the
fresh instance is appended to the registry. -/
def StoreInstances.new (instances : List Nat) (k : Nat) : List Nat :=
  instances ++ [k]

/-- Method `StoreInstances.__del__`: `type(self)._instances.remove(self)`. -/
def StoreInstances.del (instances : List Nat) (k : Nat) : Except PyErr (List Nat) :=
  pyRemove instances k

/-- Runs a sequence of constructions and destructions against the
`_instances` registry of a class using `StoreInstances`. -/
def StoreInstances.run : List RegOp → List Nat → Except PyErr (List Nat)
  | [], l => .ok l
  | RegOp.new k :: rest, l => StoreInstances.run rest (StoreInstances.new l k)
  | RegOp.del k :: rest, l => do
      let l' ← StoreInstances.del l k
      StoreInstances.run rest l'

/-- Well-formedness of an operation sequence relative to the identities
constructed so far (`seen`, in construction order) and destroyed so far
(`dels`): every construction uses a fresh identity and every destruction
targets a previously-constructed, not-yet-destroyed instance. -/
def RegOp.wf : List Nat → List Nat → List RegOp → Prop
  | _, _, [] => True
  | seen, dels, RegOp.new k :: rest => k ∉ seen ∧ RegOp.wf (seen ++ [k]) dels rest
  | seen, dels, RegOp.del k :: rest =>
      k ∈ seen ∧ k ∉ dels ∧ RegOp.wf seen (dels ++ [k]) rest

/-- Identities constructed by a sequence, in construction order. -/
def RegOp.news : List RegOp → List Nat
  | [] => []
  | RegOp.new k :: rest => k :: RegOp.news rest
  | RegOp.del _ :: rest => RegOp.news rest

/-- Identities destroyed by a sequence. -/
def RegOp.dels : List RegOp → List Nat
  | [] => []
  | RegOp.new _ :: rest => RegOp.dels rest
  | RegOp.del k :: rest => k :: RegOp.dels rest

/-- Unfolding lemma: destroying a present instance removes its first
occurrence and the run continues. -/
theorem StoreInstances.run_del_cons (k : Nat) (rest : List RegOp)
    (l : List Nat) (h : k ∈ l) :
    StoreInstances.run (RegOp.del k :: rest) l =
      StoreInstances.run rest (l.erase k) := by
  simp [StoreInstances.run, StoreInstances.del, pyRemove, h, Bind.bind,
    Except.bind]

/-- Generalized registry correctness: starting from the registry determined
by `seen` and `dels`, a well-formed sequence leaves the registry equal to
all constructed identities, in order, minus all destroyed ones. -/
theorem StoreInstances.run_wf (ops : List RegOp) :
    ∀ (seen dels : List Nat), seen.Nodup → (∀ d ∈ dels, d ∈ seen) →
      RegOp.wf seen dels ops →
      StoreInstances.run ops (seen.filter (fun x => decide (x ∉ dels))) =
        .ok ((seen ++ RegOp.news ops).filter
          (fun x => decide (x ∉ dels ++ RegOp.dels ops))) := by
  induction ops with
  | nil =>
    intro seen dels _ _ _
    simp [StoreInstances.run, RegOp.news, RegOp.dels]
  | cons op rest ih =>
    cases op with
    | new k =>
      intro seen dels hnd hsub hwf
      obtain ⟨hk, hwf'⟩ := hwf
      have hkd : k ∉ dels := fun h => hk (hsub k h)
      have happ : seen.filter (fun x => decide (x ∉ dels)) ++ [k] =
          (seen ++ [k]).filter (fun x => decide (x ∉ dels)) := by
        simp [List.filter_append, hkd]
      have hnd' : (seen ++ [k]).Nodup := by
        simp [List.nodup_append, hk]
        exact hnd
      have hsub' : ∀ d ∈ dels, d ∈ seen ++ [k] := by
        intro d hd
        exact List.mem_append.2 (Or.inl (hsub d hd))
      simp only [StoreInstances.run, StoreInstances.new]
      rw [happ, ih (seen ++ [k]) dels hnd' hsub' hwf']
      simp [RegOp.news, RegOp.dels, List.append_assoc]
    | del k =>
      intro seen dels hnd hsub hwf
      obtain ⟨hks, hkd, hwf'⟩ := hwf
      have hmem : k ∈ seen.filter (fun x => decide (x ∉ dels)) :=
        List.mem_filter.2 ⟨hks, by simp [hkd]⟩
      rw [StoreInstances.run_del_cons k rest _ hmem]
      have herase : (seen.filter (fun x => decide (x ∉ dels))).erase k =
          seen.filter (fun x => decide (x ∉ dels ++ [k])) := by
        rw [(hnd.filter _).erase_eq_filter, List.filter_filter]
        refine List.filter_congr ?_
        intro x hx
        by_cases h1 : x ∈ dels <;> by_cases h2 : x = k <;>
          simp [h1, h2, List.mem_append]
      have hsub' : ∀ d ∈ dels ++ [k], d ∈ seen := by
        intro d hd
        rcases List.mem_append.1 hd with h | h
        · exact hsub d h
        · simp at h
          subst h
          exact hks
      rw [herase, ih seen (dels ++ [k]) hnd hsub' hwf']
      simp [RegOp.news, RegOp.dels, List.append_assoc]

/-- Claim C7: after a well-formed sequence of constructions and
destructions (destructions target distinct previously-constructed, still
live instances), the registry — what `allInstances` reports — holds exactly
the constructed identities that were not destroyed, in construction order. -/
theorem allInstances_after_ops (ops : List RegOp) (h : RegOp.wf [] [] ops) :
    StoreInstances.run ops [] =
      .ok ((RegOp.news ops).filter (fun x => decide (x ∉ RegOp.dels ops))) := by
  have h0 := StoreInstances.run_wf ops [] [] List.nodup_nil (by simp) h
  simpa using h0

/-- Witness for C7: three constructions, one destruction, one more
construction; the registry ends as `[1, 3, 4]`. -/
theorem allInstances_after_ops_witness :
    StoreInstances.run
        [RegOp.new 1, RegOp.new 2, RegOp.new 3, RegOp.del 2, RegOp.new 4] [] =
      .ok [1, 3, 4] := by
  rw [allInstances_after_ops
    [RegOp.new 1, RegOp.new 2, RegOp.new 3, RegOp.del 2, RegOp.new 4]
    (by simp [RegOp.wf])]
  rfl

/-- Method `Unique.__new__` (argument-free path): when the registry is
empty, delegates to `StoreInstances.__new__` (registering the fresh
instance `k`); otherwise returns the registered instance `_instances[0]`
without touching the registry.  Result: the instance returned, and the
registry afterwards. -/
def Unique.new (instances : List Nat) (k : Nat) : Nat × List Nat :=
  if instances.length = 0 then (k, StoreInstances.new instances k)
  else (instances.headI, instances)

/-- A Python call `SomeUniqueClass(*args)`: `type.__call__` forwards the
arguments to `Unique.__new__`, whose signature `def __new__(cls):` accepts
none, so supplying any argument raises `TypeError` before the registry is
even consulted; with no arguments the body of `Unique.__new__` runs.
`nargs` is the number of arguments supplied, `k` the identity a fresh
instance would get. -/
def Unique.construct (instances : List Nat) (k : Nat) (nargs : Nat) :
    Except PyErr (Nat × List Nat) :=
  if nargs = 0 then .ok (Unique.new instances k)
  else .error .typeError

/-- Runs constructions (argument-free) and destructions against the
registry of a class using `Unique`. -/
def Unique.run : List RegOp → List Nat → Except PyErr (List Nat)
  | [], l => .ok l
  | RegOp.new k :: rest, l => Unique.run rest (Unique.new l k).2
  | RegOp.del k :: rest, l => do
      let l' ← StoreInstances.del l k
      Unique.run rest l'

/-- Counterexample to claim C2: with a live instance `7` registered,
constructing with one argument raises `TypeError` — it does not silently
discard the argument and return the existing instance. -/
theorem unique_construct_with_args_cex :
    Unique.construct [7] 8 1 = .error PyErr.typeError ∧
    Unique.construct [7] 8 1 ≠ .ok (7, [7]) := by
  refine ⟨rfl, ?_⟩
  intro hcontra
  simp [Unique.construct] at hcontra

/-- Claim C2 (amended): for every `Unique` class, a construction attempt
that supplies constructor arguments raises `TypeError` (the signature of
`Unique.__new__` accepts no arguments), whether or not a live instance
exists; the arguments are never silently discarded. -/
theorem unique_construct_with_args_raises (instances : List Nat)
    (k nargs : Nat) (h : nargs ≠ 0) :
    Unique.construct instances k nargs = .error PyErr.typeError := by
  simp [Unique.construct, h]

/-- Witness for the amended C2 with a live instance and one argument. -/
theorem unique_construct_with_args_raises_witness :
    Unique.construct [7] 8 1 = .error PyErr.typeError :=
  unique_construct_with_args_raises [7] 8 1 (by decide)

/-- Claim C6: first conjunct — calling `getOrCreate` (an argument-free
construction) twice without an intervening destruction returns the
identical instance and leaves the registry unchanged; second conjunct —
starting from a registry with at most one instance, any sequence of
constructions and destructions leaves at most one instance registered. -/
theorem unique_getOrCreate_and_invariant :
    (∀ (instances : List Nat) (k₁ k₂ i : Nat) (instances' : List Nat),
      Unique.construct instances k₁ 0 = .ok (i, instances') →
      Unique.construct instances' k₂ 0 = .ok (i, instances')) ∧
    (∀ (ops : List RegOp) (l res : List Nat), l.length ≤ 1 →
      Unique.run ops l = .ok res → res.length ≤ 1) := by
  constructor
  · intro instances k₁ k₂ i instances' h
    simp only [Unique.construct, if_pos rfl, Except.ok.injEq] at h ⊢
    cases instances with
    | nil =>
      simp [Unique.new, StoreInstances.new] at h
      obtain ⟨h1, h2⟩ := h
      subst h1
      subst h2
      simp [Unique.new, List.headI]
    | cons a r =>
      simp [Unique.new, List.headI] at h
      obtain ⟨h1, h2⟩ := h
      subst h1
      subst h2
      simp [Unique.new, List.headI]
  · intro ops
    induction ops with
    | nil =>
      intro l res hl h
      simp [Unique.run] at h
      subst h
      exact hl
    | cons op rest ih =>
      cases op with
      | new k =>
        intro l res hl h
        simp only [Unique.run] at h
        refine ih _ res ?_ h
        cases l with
        | nil => simp [Unique.new, StoreInstances.new]
        | cons a r => simpa [Unique.new] using hl
      | del k =>
        intro l res hl h
        simp only [Unique.run, StoreInstances.del, pyRemove] at h
        by_cases hm : k ∈ l
        · simp only [hm, if_pos, Bind.bind, Except.bind] at h
          refine ih _ res ?_ h
          exact le_trans (List.Sublist.length_le (List.erase_sublist k l)) hl
        · simp [hm, Bind.bind, Except.bind] at h

/-- Witness for C6: a second argument-free construction with instance `5`
live returns instance `5` again; and two constructions from the empty
registry leave exactly one registered instance. -/
theorem unique_getOrCreate_and_invariant_witness :
    Unique.construct [5] 6 0 = .ok (5, [5]) ∧ ([1] : List Nat).length ≤ 1 := by
  constructor
  · exact unique_getOrCreate_and_invariant.1 [] 5 6 5 [5] rfl
  · exact unique_getOrCreate_and_invariant.2 [RegOp.new 1, RegOp.new 2] [] [1]
      (by decide) rfl

/-! ## `events.py`: class `StoredFunc`

The wrapped producer is a Python closure with hidden state; it is modelled
as a function of its call index (`nCalls` counts the calls made so far)
returning either a value or a raised exception.  The class attributes give
the initial state `stored = False`, `res = None`.  The `changed` and
`cache_cleared` events of the wrapper have no subscribers in the claims'
scenarios, so firing them is recorded by incrementing a counter.
-/

/-- State of a `StoredFunc` object (plus instrumentation: the number of
producer calls made and the number of firings of the `changed` and
`cache_cleared` events). -/
structure SFState (V : Type) where
  stored : Bool
  res : Option V
  nCalls : Nat
  changedCount : Nat
  clearedCount : Nat
deriving DecidableEq, Repr

/-- Initial state given by the class attributes `stored = False`,
`res = None`, with all instrumentation counters at zero. -/
def StoredFunc.init (V : Type) : SFState V :=
  ⟨false, none, 0, 0, 0⟩

/-- Method `StoredFunc.cache_clear`: `self.stored = False; self.res = None;
self.cache_cleared.call()`. -/
def StoredFunc.cache_clear {V : Type} (st : SFState V) : SFState V :=
  { st with stored := false, res := none, clearedCount := st.clearedCount + 1 }

/-- Method `StoredFunc.__call__`: when not stored, `self.res = self.fun()`
(which may raise — then `res`, `stored` and the events are untouched),
then `self.stored = True`, `self.changed.call()`; returns `self.res` (a
Python value, possibly `None`) in every non-raising case. -/
def StoredFunc.call {V : Type} (f : Nat → Except PyErr V) (st : SFState V) :
    SFState V × Except PyErr (Option V) :=
  if st.stored then (st, .ok st.res)
  else
    match f st.nCalls with
    | .error e => ({ st with nCalls := st.nCalls + 1 }, .error e)
    | .ok v =>
        ({ st with res := some v, stored := true, nCalls := st.nCalls + 1, changedCount := st.changedCount + 1 }, .ok (some v))

/-- Firing a dependency event `e`: `StoredFunc.__init__` subscribed
`self.cache_clear` to every dependency event, so `e.call()` runs the
callback list `[self.cache_clear]`. -/
def StoredFunc.fireDependency {V : Type} (st : SFState V) : SFState V :=
  StoredFunc.cache_clear st

/-- Iterated dependency firings: `k` consecutive `e.fire()` calls. -/
def StoredFunc.fireDependencyTimes {V : Type} : Nat → SFState V → SFState V
  | 0, st => st
  | k + 1, st => StoredFunc.fireDependencyTimes k (StoredFunc.fireDependency st)

/-- Producer for claim C4: successive calls return `1, 2, 3, ...`. -/
def incProducer (n : Nat) : Except PyErr Nat :=
  .ok (n + 1)

/-- Claim C4: with a producer returning `1, 2, 3, ...` and a watched
dependency event `e`: the first `invoke()` returns `1` (one producer call);
a second `invoke()` with no `e.fire()` in between returns `1` without
calling the producer again (still one producer call); after `e.fire()`,
the next `invoke()` calls the producer again and returns `2`. -/
theorem storedfunc_caching_scenario :
    (StoredFunc.call incProducer (StoredFunc.init Nat)).2 = .ok (some 1) ∧
    (StoredFunc.call incProducer (StoredFunc.init Nat)).1.nCalls = 1 ∧
    (StoredFunc.call incProducer
        (StoredFunc.call incProducer (StoredFunc.init Nat)).1).2 =
      .ok (some 1) ∧
    (StoredFunc.call incProducer
        (StoredFunc.call incProducer (StoredFunc.init Nat)).1).1.nCalls = 1 ∧
    (StoredFunc.call incProducer
        (StoredFunc.fireDependency
          (StoredFunc.call incProducer
            (StoredFunc.call incProducer (StoredFunc.init Nat)).1).1)).2 =
      .ok (some 2) := by
  exact ⟨rfl, rfl, rfl, rfl, rfl⟩

/-- Claim C8: firing a dependency event always runs `cache_clear`, which
sets `stored = False` and fires `cache_cleared` unconditionally; hence
firing while already stale leaves the state stale and still fires
`cache_cleared`, and `k` consecutive firings fire it `k` times. -/
theorem storedfunc_redundant_invalidation {V : Type} (st : SFState V)
    (hst : st.stored = false) :
    ∀ k : Nat,
      (StoredFunc.fireDependencyTimes k st).stored = false ∧
      (StoredFunc.fireDependencyTimes k st).clearedCount =
        st.clearedCount + k := by
  intro k
  induction k generalizing st with
  | zero => exact ⟨hst, rfl⟩
  | succ n ih =>
    have h := ih (StoredFunc.fireDependency st) rfl
    refine ⟨h.1, ?_⟩
    rw [StoredFunc.fireDependencyTimes, h.2]
    simp [StoredFunc.fireDependency, StoredFunc.cache_clear]
    omega

/-- Witness for C8: three consecutive firings on an already-stale wrapper
keep it stale and fire `cache_cleared` three times. -/
theorem storedfunc_redundant_invalidation_witness :
    (StoredFunc.fireDependencyTimes 3 (StoredFunc.init Nat)).stored = false ∧
    (StoredFunc.fireDependencyTimes 3 (StoredFunc.init Nat)).clearedCount =
      (StoredFunc.init Nat).clearedCount + 3 :=
  storedfunc_redundant_invalidation (StoredFunc.init Nat) rfl 3

/-- Claim C10: when the wrapper is stale and the producer raises,
`invoke()` propagates the exception, leaves `stored = False` and `res`
unchanged, fires neither `changed` nor `cache_cleared`, and a subsequent
`invoke()` calls the producer again (and returns its value if it now
succeeds). -/
theorem storedfunc_producer_raises {V : Type} (f : Nat → Except PyErr V)
    (st : SFState V) (e : PyErr) (hst : st.stored = false)
    (hf : f st.nCalls = .error e) :
    (StoredFunc.call f st).2 = .error e ∧
    (StoredFunc.call f st).1.stored = false ∧
    (StoredFunc.call f st).1.res = st.res ∧
    (StoredFunc.call f st).1.changedCount = st.changedCount ∧
    (StoredFunc.call f st).1.clearedCount = st.clearedCount ∧
    (StoredFunc.call f st).1.nCalls = st.nCalls + 1 ∧
    (∀ v : V, f (st.nCalls + 1) = .ok v →
      (StoredFunc.call f (StoredFunc.call f st).1).2 = .ok (some v)) := by
  have hcall : StoredFunc.call f st = ({ st with nCalls := st.nCalls + 1 }, .error e) := by
    simp [StoredFunc.call, hst, hf]
  refine ⟨by rw [hcall], by rw [hcall]; exact hst, by rw [hcall],
    by rw [hcall], by rw [hcall], by rw [hcall], ?_⟩
  intro v hv
  rw [hcall]
  simp [StoredFunc.call, hst, hv]

/-- Witness for C10: a producer that raises `ValueError` on its first call
and returns `9` on its second. -/
theorem storedfunc_producer_raises_witness :
    (StoredFunc.call
        (fun n => if n = 0 then .error PyErr.valueError else .ok 9)
        (StoredFunc.init Nat)).2 = .error PyErr.valueError ∧
    (StoredFunc.call
        (fun n => if n = 0 then .error PyErr.valueError else .ok 9)
        (StoredFunc.call
          (fun n => if n = 0 then .error PyErr.valueError else .ok 9)
          (StoredFunc.init Nat)).1).2 = .ok (some 9) := by
  have h := storedfunc_producer_raises
    (fun n => if n = 0 then .error PyErr.valueError else .ok 9)
    (StoredFunc.init Nat) PyErr.valueError rfl rfl
  exact ⟨h.1, h.2.2.2.2.2.2 9 rfl⟩

/-! ## `events.py`: classes `Master`, `Slave`, `SlaveFloat`, `SlaveInt`

Python values flowing through a master/slave pair are modelled by `PyVal`
(an integer, a string, or `None`), enough to express the numeric coercion
`int(...)` and its failure modes.  Each scenario fixes an object graph; the
callback list of each `changed` event is exactly what the constructors
subscribed, inlined at the event's call site.
-/

/-- A dynamically-typed Python value held by a master or slave. -/
inductive PyVal where
  | int (n : Int)
  | str (s : String)
  | none
deriving DecidableEq, Repr

/-- Decimal digits to a number, most significant first; `Option.none` when
a non-digit occurs. -/
def digitsToNatAux : List Char → Nat → Option Nat
  | [], acc => some acc
  | c :: rest, acc =>
      if c.isDigit then digitsToNatAux rest (acc * 10 + (c.toNat - 48))
      else Option.none

/-- Nonempty run of decimal digits to a number. -/
def digitsToNat : List Char → Option Nat
  | [] => Option.none
  | c :: rest => digitsToNatAux (c :: rest) 0

/-- Decimal integer literal (optional leading minus) to an integer. -/
def pyParseInt (s : String) : Option Int :=
  match s.data with
  | '-' :: rest => (digitsToNat rest).map (fun n => -(n : Int))
  | cs => (digitsToNat cs).map (fun n => (n : Int))

/-- Model of Python's builtin `int(...)` on `PyVal`: an integer is returned
as is, a string is parsed as a decimal integer (`ValueError` when it does
not parse), and `None` raises `TypeError`. -/
def pyInt : PyVal → Except PyErr PyVal
  | .int n => .ok (.int n)
  | .str s =>
      match pyParseInt s with
      | some n => .ok (.int n)
      | Option.none => .error .valueError
  | .none => .error .typeError

/-- Object graph for claims C1: one `Master` and one `SlaveInt` subscribed
to it.  `m_value` is `Master._value`; `s_value` is the slave's `value`
attribute. -/
structure MS where
  m_value : PyVal
  s_value : PyVal
deriving DecidableEq, Repr

/-- Constructor `SlaveInt.__init__(master)`: `Slave.__init__` stores
`master.value` into `self.value` and subscribes `self.change_value` to
`master.changed`; then `SlaveInt.__init__` replaces `self.value` with
`int(self.value)`, which may raise. -/
def SlaveInt.init (m_value : PyVal) : Except PyErr MS := do
  let v ← pyInt m_value
  return ⟨m_value, v⟩

/-- Method `Slave.change_value` (inherited unchanged by `SlaveFloat` and
`SlaveInt`): `self.value = self.master.value`, then `self.changed.call()`
(no subscribers here).  No coercion is applied. -/
def Slave.change_value (st : MS) : MS :=
  { st with s_value := st.m_value }

/-- Setter `Master.value`: `self._value = value`, then
`self.changed.call()` — the callback list is `[slave.change_value]`. -/
def Master.setValue (st : MS) (x : PyVal) : MS :=
  Slave.change_value { st with m_value := x }

/-- Counterexample to claim C1: a `SlaveInt` built on a master holding
`"12"` stores the converted integer `12`; after `setValue("34")` the
slave's stored value is the raw string `"34"` — not the integer `34`
although the conversion would succeed — and no error is raised (the update
is a total function here).  The typed coercion is applied only by
`__init__`, never by the inherited `change_value` update handler. -/
theorem slaveint_update_skips_coercion_cex :
    SlaveInt.init (.str "12") = .ok ⟨.str "12", .int 12⟩ ∧
    pyInt (.str "34") = .ok (.int 34) ∧
    (Master.setValue ⟨.str "12", .int 12⟩ (.str "34")).s_value = .str "34" ∧
    (Master.setValue ⟨.str "12", .int 12⟩ (.str "34")).s_value ≠ .int 34 := by
  exact ⟨rfl, rfl, rfl, by decide⟩

/-- Claim C1 (amended): the numeric coercion of `SlaveFloat` / `SlaveInt`
is applied only at construction.  Every update triggered by the source's
`onChanged` runs the inherited `Slave.change_value`, which stores the
re-read source value unchanged — no coercion, and no type-conversion error
can arise from an update (conversion errors can arise only from
construction). -/
theorem slave_update_stores_raw_value (st : MS) (x : PyVal) :
    (Master.setValue st x).s_value = x ∧ (Master.setValue st x).m_value = x :=
  ⟨rfl, rfl⟩

/-- Object graph for claim C5: a chain `s → d1 → d2` where `d1` is a
`Slave` of master `s` and `d2` a `Slave` of `d1` (a `Slave` can serve as
the master of another `Slave`).  Values are of an arbitrary type `α`. -/
structure Chain (α : Type) where
  s : α
  d1 : α
  d2 : α
deriving DecidableEq, Repr

/-- Method `Slave.change_value` of `d2`: stores its master's (`d1`'s)
value, then fires `d2.changed` (no subscribers). -/
def Chain.d2_change_value {α : Type} (st : Chain α) : Chain α :=
  { st with d2 := st.d1 }

/-- Method `Slave.change_value` of `d1`: stores its master's (`s`'s)
value, then fires `d1.changed`, whose callback list is
`[d2.change_value]`. -/
def Chain.d1_change_value {α : Type} (st : Chain α) : Chain α :=
  Chain.d2_change_value { st with d1 := st.s }

/-- Setter `Master.value` of `s`: stores the value, then fires
`s.changed`, whose callback list is `[d1.change_value]`. -/
def Chain.setValue {α : Type} (st : Chain α) (x : α) : Chain α :=
  Chain.d1_change_value { st with s := x }

/-- Claim C5: for the chain `s → d1 → d2`, a single `s.setValue(x)`
propagates synchronously through the whole chain — when the call returns,
both `d1` and `d2` hold `x`. -/
theorem chain_setValue_propagates {α : Type} (st : Chain α) (x : α) :
    (Chain.setValue st x).d1 = x ∧ (Chain.setValue st x).d2 = x :=
  ⟨rfl, rfl⟩
